import Mathlib

/-!
Shallow embedding of the `defenseunicorns/leapfrog-api` repository:

* `src/vectordb/vector_stores.py` — the vector-store router (`LLamaIndex`)
  and the two backends (`Weaviate`, `ChromaDB`) it dispatches to;
* `src/backends/openai/types.py` — pydantic request/response schema classes.

External effects (the llama_index / weaviate / chromadb library calls, the
model configuration, and wall-clock timing) are modelled by an oracle
record `World`; every external call a router function makes is recorded in
an explicit trace (`List Call`), and may fail, reflecting that a Python
call can raise.  Environment variables read at class-body evaluation time
(`os.environ.get(...)`, which yields `None` when the variable is unset)
are modelled by the record `Env` whose fields are `Option String`.
-/

/-- Errors raised by external library calls (Python exceptions, abstract). -/
abbrev Err := String

/-- An opaque batch of documents handed to `vectorize_docs`. -/
abbrev Docs := List String

/-- One external side-effecting call made by the code under
`src/vectordb/vector_stores.py`.  The three llama_index steps inside a
backend's `process_query` (get_vector_store, index_from_vector_store,
query_index) are collapsed into a single query call carrying the index
name the backend passed to `get_vector_store`; likewise the ingestion
pipeline (get_storage_context, index_from_docs, persist_index) of
`vectorize_docs` is one ingestion call. -/
inductive Call where
  | setRag : Call
  | weaviateQuery : Option String → String → Call
  | chromaQuery : Option String → String → Call
  | weaviateIngest : Option String → Docs → Call
  | chromaIngest : Option String → Docs → Call
deriving DecidableEq

/-- A computation that performs external calls: it extends a trace of the
calls made so far and either produces a value or propagates the error
raised by the first failing call (Python exception semantics). -/
abbrev Eff (α : Type) : Type := List Call → Except Err α × List Call

/-- Source: `return`/no-op computation. -/
def effPure {α : Type} (a : α) : Eff α := fun t => (Except.ok a, t)

/-- Sequencing: a raised error aborts the rest of the computation and
propagates unchanged, exactly as an uncaught Python exception does. -/
def effBind {α β : Type} (m : Eff α) (f : α → Eff β) : Eff β := fun t =>
  match m t with
  | (Except.ok a, t2) => f a t2
  | (Except.error e, t2) => (Except.error e, t2)

/-- The oracle for every external collaborator: what each library call
would return (or raise), the configured backend list
`get_model_config().rag.vector_stores`, and the elapsed times the
wall clock would report. -/
structure World where
  setRagRes : Except Err Unit
  configVdbs : List String
  weaviateQueryRes : Option String → String → Except Err String
  chromaQueryRes : Option String → String → Except Err String
  weaviateIngestRes : Option String → Docs → Except Err Unit
  chromaIngestRes : Option String → Docs → Except Err Unit
  weaviateQueryElapsed : Nat
  chromaQueryElapsed : Nat
  routerQueryElapsed : Nat

/-- Replace the configured backend list, keeping every other oracle. -/
def World.setVdbs (w : World) (v : List String) : World :=
  { w with configVdbs := v }

/-- The process environment at class-body evaluation time:
`os.environ.get` returns `None` (here `none`) for an unset variable. -/
structure Env where
  lfaiIndexName : Option String
  weaviateHost : Option String
  weaviatePort : Option String
  chromaHost : Option String
  chromaPort : Option String

/-- Source: `BaseVectorStore.LFAI_INDEX_NAME = os.environ.get('LFAI_INDEX_NAME')`
(vector_stores.py line 107). -/
def BaseVectorStore.LFAI_INDEX_NAME (env : Env) : Option String :=
  env.lfaiIndexName

/-- Source: `Weaviate.LFAI_INDEX_NAME`: the `Weaviate` class body does not redefine
`LFAI_INDEX_NAME`, so Python attribute lookup resolves it to the inherited
`BaseVectorStore.LFAI_INDEX_NAME`. -/
def Weaviate.LFAI_INDEX_NAME (env : Env) : Option String :=
  BaseVectorStore.LFAI_INDEX_NAME env

/-- Source: `ChromaDB.LFAI_INDEX_NAME`: likewise inherited from
`BaseVectorStore`. -/
def ChromaDB.LFAI_INDEX_NAME (env : Env) : Option String :=
  BaseVectorStore.LFAI_INDEX_NAME env

/-- Source: `Weaviate.HOST = os.environ.get('WEAVIATE_HOST')` (line 154). -/
def Weaviate.HOST (env : Env) : Option String := env.weaviateHost

/-- Source: `Weaviate.PORT = os.environ.get('WEAVIATE_PORT')` (line 155). -/
def Weaviate.PORT (env : Env) : Option String := env.weaviatePort

/-- Source: `ChromaDB.HOST = os.environ.get('CHROMADB_HOST')` (line 193). -/
def ChromaDB.HOST (env : Env) : Option String := env.chromaHost

/-- Source: `ChromaDB.PORT = os.environ.get('CHROMADB_PORT')` (line 194). -/
def ChromaDB.PORT (env : Env) : Option String := env.chromaPort

/-- How a Python f-string renders a value that may be `None`:
`f'{None}'` is the string `"None"`. -/
def pyFormat (v : Option String) : String :=
  match v with
  | some s => s
  | none => "None"

/-- The client object a backend constructs, by the constructor arguments
that reach the third-party client library. -/
inductive ClientSpec where
  | weaviateClient : String → ClientSpec
  | chromaClient : Option String → Option String → ClientSpec
deriving DecidableEq

/-- Source: `Weaviate.get_client` (lines 157-159):
`weaviate.Client(f'http://{Weaviate.HOST}:{Weaviate.PORT}')`. -/
def Weaviate.get_client (env : Env) : ClientSpec :=
  ClientSpec.weaviateClient
    ("http://" ++ pyFormat (Weaviate.HOST env) ++ ":" ++ pyFormat (Weaviate.PORT env))

/-- Source: `ChromaDB.get_client` (lines 197-199):
`chromadb.HttpClient(host=ChromaDB.HOST, port=ChromaDB.PORT)`. -/
def ChromaDB.get_client (env : Env) : ClientSpec :=
  ClientSpec.chromaClient (ChromaDB.HOST env) (ChromaDB.PORT env)

/-- Source: `set_rag_context()` (lines 27-63): reads the model configuration and
sets the global llama_index service context; entirely external, so it is
one recorded call that may fail. -/
def set_rag_context (w : World) : Eff Unit :=
  fun t => (w.setRagRes, t ++ [Call.setRag])

/-- The external query pipeline of `Weaviate.process_query`
(get_vector_store → index_from_vector_store → query_index), as a single
recorded call carrying the index name passed to `get_vector_store`. -/
def Weaviate.queryPipeline (w : World) (idx : Option String) (prompt : String) : Eff String :=
  fun t => (w.weaviateQueryRes idx prompt, t ++ [Call.weaviateQuery idx prompt])

/-- The external query pipeline of `ChromaDB.process_query`, as a single
recorded call carrying the index name passed to `get_vector_store`. -/
def ChromaDB.queryPipeline (w : World) (idx : Option String) (prompt : String) : Eff String :=
  fun t => (w.chromaQueryRes idx prompt, t ++ [Call.chromaQuery idx prompt])

/-- The external ingestion pipeline of `Weaviate.vectorize_docs`
(get_storage_context → index_from_docs → persist_index), as a single
recorded call. -/
def Weaviate.ingestPipeline (w : World) (idx : Option String) (docs : Docs) : Eff Unit :=
  fun t => (w.weaviateIngestRes idx docs, t ++ [Call.weaviateIngest idx docs])

/-- The external ingestion pipeline of `ChromaDB.vectorize_docs`, as a
single recorded call. -/
def ChromaDB.ingestPipeline (w : World) (idx : Option String) (docs : Docs) : Eff Unit :=
  fun t => (w.chromaIngestRes idx docs, t ++ [Call.chromaIngest idx docs])

/-- The dict `{'vector_store': ..., 'response': ..., 'elapsed': ...}`
returned by each backend's `process_query`. -/
structure BackendAnswer where
  vector_store : String
  response : String
  elapsed : Nat
deriving DecidableEq

/-- Source: `Weaviate.process_query` (lines 183-189): query the Weaviate vector
store at index `Weaviate.LFAI_INDEX_NAME` and return the labelled answer
with its elapsed time. -/
def Weaviate.process_query (w : World) (env : Env) (prompt : String) : Eff BackendAnswer :=
  effBind (Weaviate.queryPipeline w (Weaviate.LFAI_INDEX_NAME env) prompt) (fun response =>
    effPure { vector_store := "weaviate", response := response,
              elapsed := w.weaviateQueryElapsed })

/-- Source: `ChromaDB.process_query` (lines 222-228): query the ChromaDB vector
store — note the source passes `Weaviate.LFAI_INDEX_NAME` (line 224) — and
return the labelled answer with its elapsed time. -/
def ChromaDB.process_query (w : World) (env : Env) (prompt : String) : Eff BackendAnswer :=
  effBind (ChromaDB.queryPipeline w (Weaviate.LFAI_INDEX_NAME env) prompt) (fun response =>
    effPure { vector_store := "chromadb", response := response,
              elapsed := w.chromaQueryElapsed })

/-- Source: `Weaviate.vectorize_docs(docs, index_name=None)` (lines 175-180):
`index_name = Weaviate.LFAI_INDEX_NAME if index_name is None else index_name`,
then the ingestion pipeline. -/
def Weaviate.vectorize_docs (w : World) (env : Env) (docs : Docs)
    (index_name : Option String) : Eff Unit :=
  let idx := match index_name with
    | none => Weaviate.LFAI_INDEX_NAME env
    | some s => some s
  Weaviate.ingestPipeline w idx docs

/-- Source: `ChromaDB.vectorize_docs(docs, index_name=None)` (lines 214-219):
`index_name = ChromaDB.LFAI_INDEX_NAME if index_name is None else index_name`,
then the ingestion pipeline. -/
def ChromaDB.vectorize_docs (w : World) (env : Env) (docs : Docs)
    (index_name : Option String) : Eff Unit :=
  let idx := match index_name with
    | none => ChromaDB.LFAI_INDEX_NAME env
    | some s => some s
  ChromaDB.ingestPipeline w idx docs

/-- The dict returned by `LLamaIndex.process_query` (lines 83-88). -/
structure RouterQueryResult where
  prompt : String
  vdbs_processed : List String
  responses : List BackendAnswer
  elapsed : Nat
deriving DecidableEq

/-- Source: `LLamaIndex.process_query(prompt)` (lines 67-88): set the RAG context,
read the configured backend list, then — in the fixed textual order of the
two `if` statements — consult Weaviate when `'weaviate' in vdbs` and
ChromaDB when `'chromadb' in vdbs`, appending each backend name and answer
as it completes, and return the aggregate record with total elapsed
time. -/
def LLamaIndex.process_query (w : World) (env : Env) (prompt : String) : Eff RouterQueryResult :=
  effBind (set_rag_context w) (fun _ =>
    let vdbs := w.configVdbs
    effBind (if vdbs.contains "weaviate" then
        effBind (Weaviate.process_query w env prompt) (fun r =>
          effPure (["weaviate"], [r]))
      else effPure (([] : List String), ([] : List BackendAnswer))) (fun s1 =>
    effBind (if vdbs.contains "chromadb" then
        effBind (ChromaDB.process_query w env prompt) (fun r =>
          effPure (["chromadb"], [r]))
      else effPure (([] : List String), ([] : List BackendAnswer))) (fun s2 =>
    effPure { prompt := prompt,
              vdbs_processed := s1.1 ++ s2.1,
              responses := s1.2 ++ s2.2,
              elapsed := w.routerQueryElapsed })))

/-- Source: `LLamaIndex.vectorize_docs(docs, vdbs)` (lines 91-103): set the RAG
context, then — in the fixed textual order of the two `if` statements —
ingest into Weaviate when `'weaviate' in vdbs` and into ChromaDB when
`'chromadb' in vdbs`, appending each backend name as its ingestion
completes, and return the processed list. -/
def LLamaIndex.vectorize_docs (w : World) (env : Env) (docs : Docs)
    (vdbs : List String) : Eff (List String) :=
  effBind (set_rag_context w) (fun _ =>
  effBind (if vdbs.contains "weaviate" then
      effBind (Weaviate.vectorize_docs w env docs none) (fun _ => effPure ["weaviate"])
    else effPure ([] : List String)) (fun p1 =>
  effBind (if vdbs.contains "chromadb" then
      effBind (ChromaDB.vectorize_docs w env docs none) (fun _ => effPure ["chromadb"])
    else effPure ([] : List String)) (fun p2 =>
  effPure (p1 ++ p2))))

/-!
Schema classes of `src/backends/openai/types.py`.  Pydantic optional
fields `T | None = d` become `Option`-typed structure fields whose
declared default is `some d` (or `none` when the default is `None`);
Python `float` becomes `Float`, `int` becomes `Int`, `str` becomes
`String`, `list` becomes `List`, and `Dict[str, str]` becomes an
association list.
-/

/-- Source: `ChatFunction` (types.py lines 46-49). -/
structure ChatFunction where
  name : String
  parameters : List (String × String)
  description : String

/-- Source: `ChatMessage` (lines 52-54). -/
structure ChatMessage where
  role : String
  content : String

/-- Source: `CompletionRequest` (lines 17-22): `prompt: str | list[int]`;
`stream: bool | None = False`; `max_new_tokens: int | None = 16`;
`temperature: float | None = 1.0`. -/
structure CompletionRequest where
  model : String
  prompt : String ⊕ List Int
  stream : Option Bool := some false
  max_new_tokens : Option Int := some 16
  temperature : Option Float := some 1.0

/-- Source: `ChatCompletionRequest` (lines 62-69): `functions: ... | None = None`;
`temperature: float | None = 1.0`; `stream: bool | None = False`;
`stop: str | None = None`; `max_tokens: int | None = 128`. -/
structure ChatCompletionRequest where
  model : String
  messages : List ChatMessage
  functions : Option (List ChatFunction) := none
  temperature : Option Float := some 1.0
  stream : Option Bool := some false
  stop : Option String := none
  max_tokens : Option Int := some 128

/-- Source: `ModelResponseModel` (lines 111-115): `object: str = "model"`;
`created: int = 0`; `owned_by: str = "leapfrogai"`. -/
structure ModelResponseModel where
  id : String
  object : String := "model"
  created : Int := 0
  owned_by : String := "leapfrogai"

/-- Source: `ModelResponse` (lines 118-120): `object: str = "list"`;
`data: list[ModelResponseModel] = []`. -/
structure ModelResponse where
  object : String := "list"
  data : List ModelResponseModel := []

/-!
Concrete instances used by counterexamples and witnesses.
-/

/-- A world whose external calls all succeed, with the configured backend
list `['chromadb', 'weaviate']` (both backends enabled, ChromaDB listed
first). -/
def testWorld : World where
  setRagRes := Except.ok ()
  configVdbs := ["chromadb", "weaviate"]
  weaviateQueryRes := fun _ _ => Except.ok "weaviate answer"
  chromaQueryRes := fun _ _ => Except.ok "chroma answer"
  weaviateIngestRes := fun _ _ => Except.ok ()
  chromaIngestRes := fun _ _ => Except.ok ()
  weaviateQueryElapsed := 1
  chromaQueryElapsed := 2
  routerQueryElapsed := 5

/-- A fully populated process environment. -/
def testEnv : Env where
  lfaiIndexName := some "lfai"
  weaviateHost := some "wv.local"
  weaviatePort := some "8080"
  chromaHost := some "cd.local"
  chromaPort := some "8000"

/-- A sample document batch. -/
def testDocs : Docs := ["doc1", "doc2"]

/-!
Theorems settling the claims.
-/

/-- C5: the schema classes apply their declared optional-field defaults:
a `CompletionRequest` built from only `model` and `prompt` has
`stream = False`, `max_new_tokens = 16`, `temperature = 1.0`; a
`ChatCompletionRequest` built from only `model` and `messages` has
`functions = None`, `temperature = 1.0`, `stream = False`, `stop = None`,
`max_tokens = 128`; a `ModelResponseModel` built from only `id` has
`object = "model"`, `created = 0`, `owned_by = "leapfrogai"`; a
`ModelResponse` built from nothing has `object = "list"` and
`data = []`. -/
theorem schema_optional_field_defaults (m : String) (p : String ⊕ List Int)
    (msgs : List ChatMessage) (i : String) :
    (({ model := m, prompt := p } : CompletionRequest).stream = some false
      ∧ ({ model := m, prompt := p } : CompletionRequest).max_new_tokens = some 16
      ∧ ({ model := m, prompt := p } : CompletionRequest).temperature = some 1.0)
    ∧ (({ model := m, messages := msgs } : ChatCompletionRequest).functions = none
      ∧ ({ model := m, messages := msgs } : ChatCompletionRequest).temperature = some 1.0
      ∧ ({ model := m, messages := msgs } : ChatCompletionRequest).stream = some false
      ∧ ({ model := m, messages := msgs } : ChatCompletionRequest).stop = none
      ∧ ({ model := m, messages := msgs } : ChatCompletionRequest).max_tokens = some 128)
    ∧ (({ id := i } : ModelResponseModel).object = "model"
      ∧ ({ id := i } : ModelResponseModel).created = 0
      ∧ ({ id := i } : ModelResponseModel).owned_by = "leapfrogai")
    ∧ (({} : ModelResponse).object = "list"
      ∧ ({} : ModelResponse).data = []) :=
  ⟨⟨rfl, rfl, rfl⟩, ⟨rfl, rfl, rfl, rfl, rfl⟩, ⟨rfl, rfl, rfl⟩, ⟨rfl, rfl⟩⟩

/-- C8: both backends' query entry points pass the same index name to
their vector-store lookup: the trace of `Weaviate.process_query` records a
query at `BaseVectorStore.LFAI_INDEX_NAME`, the trace of
`ChromaDB.process_query` (which reads `Weaviate.LFAI_INDEX_NAME`) records
a query at that same name, and both classes' `LFAI_INDEX_NAME` resolve to
the single inherited `BaseVectorStore.LFAI_INDEX_NAME` value. -/
theorem backends_query_same_index_name (w : World) (env : Env) (prompt : String) :
    (Weaviate.process_query w env prompt []).2
        = [Call.weaviateQuery (BaseVectorStore.LFAI_INDEX_NAME env) prompt]
    ∧ (ChromaDB.process_query w env prompt []).2
        = [Call.chromaQuery (BaseVectorStore.LFAI_INDEX_NAME env) prompt]
    ∧ Weaviate.LFAI_INDEX_NAME env = BaseVectorStore.LFAI_INDEX_NAME env
    ∧ ChromaDB.LFAI_INDEX_NAME env = BaseVectorStore.LFAI_INDEX_NAME env := by
  refine ⟨?_, ?_, rfl, rfl⟩
  · cases hq : w.weaviateQueryRes (BaseVectorStore.LFAI_INDEX_NAME env) prompt <;>
      simp [Weaviate.process_query, Weaviate.queryPipeline, effBind, effPure,
        Weaviate.LFAI_INDEX_NAME, hq]
  · cases hq : w.chromaQueryRes (BaseVectorStore.LFAI_INDEX_NAME env) prompt <;>
      simp [ChromaDB.process_query, ChromaDB.queryPipeline, effBind, effPure,
        Weaviate.LFAI_INDEX_NAME, hq]

/-- C9: each backend client is addressed by the host/port taken from the
process environment: the Weaviate client targets the URL
`'http://' + WEAVIATE_HOST + ':' + WEAVIATE_PORT` and the ChromaDB client
is constructed with host `CHROMADB_HOST` and port `CHROMADB_PORT`. -/
theorem clients_addressed_from_env (env : Env) (h p ch cp : String)
    (hh : env.weaviateHost = some h) (hp : env.weaviatePort = some p)
    (hch : env.chromaHost = some ch) (hcp : env.chromaPort = some cp) :
    Weaviate.get_client env = ClientSpec.weaviateClient ("http://" ++ h ++ ":" ++ p)
    ∧ ChromaDB.get_client env = ClientSpec.chromaClient (some ch) (some cp) := by
  constructor
  · simp [Weaviate.get_client, Weaviate.HOST, Weaviate.PORT, pyFormat, hh, hp]
  · simp [ChromaDB.get_client, ChromaDB.HOST, ChromaDB.PORT, hch, hcp]

/-- Witness for `clients_addressed_from_env` at the concrete environment
`testEnv`. -/
theorem clients_addressed_from_env_witness :
    Weaviate.get_client testEnv = ClientSpec.weaviateClient "http://wv.local:8080"
    ∧ ChromaDB.get_client testEnv = ClientSpec.chromaClient (some "cd.local") (some "8000") := by
  simpa using clients_addressed_from_env testEnv "wv.local" "8080" "cd.local" "8000"
    rfl rfl rfl rfl

/-- C2: for every prompt, a query request invokes each enabled backend's
query entry point in sequence (the trace is the RAG-context call followed
by the enabled backends' query calls, Weaviate then ChromaDB), and
returns the record holding the combined list of per-backend answers —
each carrying that backend's response and its own elapsed time — together
with the total elapsed time and the list of backends consulted. -/
theorem process_query_aggregates (w : World) (env : Env) (prompt qw qc : String)
    (hset : w.setRagRes = Except.ok ())
    (hwq : w.weaviateQueryRes (BaseVectorStore.LFAI_INDEX_NAME env) prompt = Except.ok qw)
    (hcq : w.chromaQueryRes (BaseVectorStore.LFAI_INDEX_NAME env) prompt = Except.ok qc) :
    LLamaIndex.process_query w env prompt []
      = (Except.ok
          { prompt := prompt,
            vdbs_processed :=
              (if w.configVdbs.contains "weaviate" then ["weaviate"] else [])
                ++ (if w.configVdbs.contains "chromadb" then ["chromadb"] else []),
            responses :=
              (if w.configVdbs.contains "weaviate" then
                  [{ vector_store := "weaviate", response := qw,
                     elapsed := w.weaviateQueryElapsed }] else [])
                ++ (if w.configVdbs.contains "chromadb" then
                  [{ vector_store := "chromadb", response := qc,
                     elapsed := w.chromaQueryElapsed }] else []),
            elapsed := w.routerQueryElapsed },
         [Call.setRag]
           ++ (if w.configVdbs.contains "weaviate" then
                 [Call.weaviateQuery (BaseVectorStore.LFAI_INDEX_NAME env) prompt] else [])
           ++ (if w.configVdbs.contains "chromadb" then
                 [Call.chromaQuery (BaseVectorStore.LFAI_INDEX_NAME env) prompt] else [])) := by
  by_cases hwv : "weaviate" ∈ w.configVdbs <;>
  by_cases hcv : "chromadb" ∈ w.configVdbs <;>
    simp [LLamaIndex.process_query, Weaviate.process_query, ChromaDB.process_query,
      Weaviate.queryPipeline, ChromaDB.queryPipeline, set_rag_context, effBind, effPure,
      Weaviate.LFAI_INDEX_NAME, hset, hwq, hcq, hwv, hcv]

/-- Witness for `process_query_aggregates` at the concrete world
`testWorld` (both backends enabled) and environment `testEnv`. -/
theorem process_query_aggregates_witness :
    LLamaIndex.process_query testWorld testEnv "what is leapfrog?" []
      = (Except.ok
          { prompt := "what is leapfrog?",
            vdbs_processed := ["weaviate", "chromadb"],
            responses :=
              [{ vector_store := "weaviate", response := "weaviate answer", elapsed := 1 },
               { vector_store := "chromadb", response := "chroma answer", elapsed := 2 }],
            elapsed := 5 },
         [Call.setRag,
          Call.weaviateQuery (some "lfai") "what is leapfrog?",
          Call.chromaQuery (some "lfai") "what is leapfrog?"]) := by
  simpa using process_query_aggregates testWorld testEnv "what is leapfrog?"
    "weaviate answer" "chroma answer" rfl rfl rfl

/-- C6: whenever the query router returns a record, its `responses` list
and its `vdbs_processed` list have the same length and, index by index,
the `vector_store` label of each answer equals the corresponding entry of
`vdbs_processed` (stated as: mapping the label over `responses` yields
exactly `vdbs_processed`). -/
theorem query_responses_aligned (w : World) (env : Env) (prompt : String)
    (res : RouterQueryResult) (t : List Call)
    (h : LLamaIndex.process_query w env prompt [] = (Except.ok res, t)) :
    res.responses.map BackendAnswer.vector_store = res.vdbs_processed := by
  by_cases hwv : "weaviate" ∈ w.configVdbs <;>
  by_cases hcv : "chromadb" ∈ w.configVdbs <;>
  cases hs : w.setRagRes <;>
  cases hq : w.weaviateQueryRes (BaseVectorStore.LFAI_INDEX_NAME env) prompt <;>
  cases hc : w.chromaQueryRes (BaseVectorStore.LFAI_INDEX_NAME env) prompt <;>
    simp [LLamaIndex.process_query, Weaviate.process_query, ChromaDB.process_query,
      Weaviate.queryPipeline, ChromaDB.queryPipeline, set_rag_context, effBind, effPure,
      Weaviate.LFAI_INDEX_NAME, hs, hq, hc, hwv, hcv] at h <;>
    (rcases h with ⟨h1, h2⟩; subst h1; simp)

/-- Witness for `query_responses_aligned`: the record `testWorld` produces
is aligned. -/
theorem query_responses_aligned_witness :
    ({ prompt := "q",
       vdbs_processed := ["weaviate", "chromadb"],
       responses :=
         [{ vector_store := "weaviate", response := "weaviate answer", elapsed := 1 },
          { vector_store := "chromadb", response := "chroma answer", elapsed := 2 }],
       elapsed := 5 } : RouterQueryResult).responses.map BackendAnswer.vector_store
      = ["weaviate", "chromadb"] :=
  query_responses_aligned testWorld testEnv "q" _
    [Call.setRag, Call.weaviateQuery (some "lfai") "q", Call.chromaQuery (some "lfai") "q"]
    rfl

/-- C3: whenever a vectorize request returns a processed list, that list
is exactly the enabled supported backends (Weaviate first, then ChromaDB),
its trace shows one ingestion call per listed backend, each listed
backend's ingestion call completed successfully, and a backend name
appears in the list iff that backend was enabled (and hence, the call
having completed, successfully processed the batch). -/
theorem vectorize_docs_processed_list (w : World) (env : Env) (docs : Docs)
    (vdbs l : List String) (t : List Call)
    (h : LLamaIndex.vectorize_docs w env docs vdbs [] = (Except.ok l, t)) :
    l = (if vdbs.contains "weaviate" then ["weaviate"] else [])
        ++ (if vdbs.contains "chromadb" then ["chromadb"] else [])
    ∧ t = [Call.setRag]
        ++ (if vdbs.contains "weaviate" then
              [Call.weaviateIngest (BaseVectorStore.LFAI_INDEX_NAME env) docs] else [])
        ++ (if vdbs.contains "chromadb" then
              [Call.chromaIngest (BaseVectorStore.LFAI_INDEX_NAME env) docs] else [])
    ∧ ("weaviate" ∈ vdbs →
        w.weaviateIngestRes (BaseVectorStore.LFAI_INDEX_NAME env) docs = Except.ok ())
    ∧ ("chromadb" ∈ vdbs →
        w.chromaIngestRes (BaseVectorStore.LFAI_INDEX_NAME env) docs = Except.ok ())
    ∧ (∀ b : String, b ∈ l ↔
        (b = "weaviate" ∧ "weaviate" ∈ vdbs) ∨ (b = "chromadb" ∧ "chromadb" ∈ vdbs)) := by
  by_cases hwv : "weaviate" ∈ vdbs <;>
  by_cases hcv : "chromadb" ∈ vdbs <;>
  cases hs : w.setRagRes <;>
  cases hi : w.weaviateIngestRes (BaseVectorStore.LFAI_INDEX_NAME env) docs <;>
  cases hj : w.chromaIngestRes (BaseVectorStore.LFAI_INDEX_NAME env) docs <;>
    simp [LLamaIndex.vectorize_docs, Weaviate.vectorize_docs, ChromaDB.vectorize_docs,
      Weaviate.ingestPipeline, ChromaDB.ingestPipeline, set_rag_context, effBind, effPure,
      Weaviate.LFAI_INDEX_NAME, ChromaDB.LFAI_INDEX_NAME, hs, hi, hj, hwv, hcv] at h <;>
    (rcases h with ⟨h1, h2⟩; subst h1; subst h2;
      simp [hwv, hcv, hi, hj, Weaviate.LFAI_INDEX_NAME, ChromaDB.LFAI_INDEX_NAME])

/-- Witness for `vectorize_docs_processed_list` at the concrete world
`testWorld` with both backends requested. -/
theorem vectorize_docs_processed_list_witness :
    ["weaviate", "chromadb"]
      = (if (["weaviate", "chromadb"] : List String).contains "weaviate"
           then ["weaviate"] else [])
        ++ (if (["weaviate", "chromadb"] : List String).contains "chromadb"
           then ["chromadb"] else [])
    ∧ [Call.setRag, Call.weaviateIngest (some "lfai") testDocs,
        Call.chromaIngest (some "lfai") testDocs]
      = [Call.setRag]
        ++ (if (["weaviate", "chromadb"] : List String).contains "weaviate" then
              [Call.weaviateIngest (BaseVectorStore.LFAI_INDEX_NAME testEnv) testDocs] else [])
        ++ (if (["weaviate", "chromadb"] : List String).contains "chromadb" then
              [Call.chromaIngest (BaseVectorStore.LFAI_INDEX_NAME testEnv) testDocs] else [])
    ∧ ("weaviate" ∈ (["weaviate", "chromadb"] : List String) →
        testWorld.weaviateIngestRes (BaseVectorStore.LFAI_INDEX_NAME testEnv) testDocs
          = Except.ok ())
    ∧ ("chromadb" ∈ (["weaviate", "chromadb"] : List String) →
        testWorld.chromaIngestRes (BaseVectorStore.LFAI_INDEX_NAME testEnv) testDocs
          = Except.ok ())
    ∧ (∀ b : String, b ∈ (["weaviate", "chromadb"] : List String) ↔
        (b = "weaviate" ∧ "weaviate" ∈ (["weaviate", "chromadb"] : List String))
          ∨ (b = "chromadb" ∧ "chromadb" ∈ (["weaviate", "chromadb"] : List String))) :=
  vectorize_docs_processed_list testWorld testEnv testDocs ["weaviate", "chromadb"]
    ["weaviate", "chromadb"]
    [Call.setRag, Call.weaviateIngest (some "lfai") testDocs,
     Call.chromaIngest (some "lfai") testDocs]
    rfl

/-- A world in which both ChromaDB pipelines raise while everything else
succeeds, with both backends enabled. -/
def errWorld : World where
  setRagRes := Except.ok ()
  configVdbs := ["weaviate", "chromadb"]
  weaviateQueryRes := fun _ _ => Except.ok "weaviate answer"
  chromaQueryRes := fun _ _ => Except.error "chromadb connection refused"
  weaviateIngestRes := fun _ _ => Except.ok ()
  chromaIngestRes := fun _ _ => Except.error "chromadb connection refused"
  weaviateQueryElapsed := 1
  chromaQueryElapsed := 2
  routerQueryElapsed := 5

/-- C4: a failing backend call during a query or a vectorize request is
not handled or retried: the raised error propagates unchanged to the
caller, and no aggregate (in particular no partial processed-backends
list) is returned — also when a later backend fails after an earlier one
succeeded. -/
theorem failures_propagate_unhandled (w : World) (env : Env) (prompt : String)
    (docs : Docs) (vdbs : List String) (e : Err)
    (hset : w.setRagRes = Except.ok ()) :
    ("weaviate" ∈ w.configVdbs →
        w.weaviateQueryRes (BaseVectorStore.LFAI_INDEX_NAME env) prompt = Except.error e →
        (LLamaIndex.process_query w env prompt []).1 = Except.error e)
    ∧ ("chromadb" ∈ w.configVdbs →
        ("weaviate" ∈ w.configVdbs →
          ∃ r, w.weaviateQueryRes (BaseVectorStore.LFAI_INDEX_NAME env) prompt = Except.ok r) →
        w.chromaQueryRes (BaseVectorStore.LFAI_INDEX_NAME env) prompt = Except.error e →
        (LLamaIndex.process_query w env prompt []).1 = Except.error e)
    ∧ ("weaviate" ∈ vdbs →
        w.weaviateIngestRes (BaseVectorStore.LFAI_INDEX_NAME env) docs = Except.error e →
        (LLamaIndex.vectorize_docs w env docs vdbs []).1 = Except.error e)
    ∧ ("chromadb" ∈ vdbs →
        ("weaviate" ∈ vdbs →
          w.weaviateIngestRes (BaseVectorStore.LFAI_INDEX_NAME env) docs = Except.ok ()) →
        w.chromaIngestRes (BaseVectorStore.LFAI_INDEX_NAME env) docs = Except.error e →
        (LLamaIndex.vectorize_docs w env docs vdbs []).1 = Except.error e) := by
  refine ⟨?_, ?_, ?_, ?_⟩
  · intro hwv hq
    simp [LLamaIndex.process_query, Weaviate.process_query, Weaviate.queryPipeline,
      set_rag_context, effBind, effPure, Weaviate.LFAI_INDEX_NAME, hset, hwv, hq]
  · intro hcv hw hq
    by_cases hwv : "weaviate" ∈ w.configVdbs
    · obtain ⟨r, hr⟩ := hw hwv
      simp [LLamaIndex.process_query, Weaviate.process_query, ChromaDB.process_query,
        Weaviate.queryPipeline, ChromaDB.queryPipeline, set_rag_context, effBind, effPure,
        Weaviate.LFAI_INDEX_NAME, hset, hwv, hcv, hq, hr]
    · simp [LLamaIndex.process_query, ChromaDB.process_query, ChromaDB.queryPipeline,
        set_rag_context, effBind, effPure, Weaviate.LFAI_INDEX_NAME, hset, hwv, hcv, hq]
  · intro hwv hq
    simp [LLamaIndex.vectorize_docs, Weaviate.vectorize_docs, Weaviate.ingestPipeline,
      set_rag_context, effBind, effPure, Weaviate.LFAI_INDEX_NAME, hset, hwv, hq]
  · intro hcv hw hq
    by_cases hwv : "weaviate" ∈ vdbs
    · simp [LLamaIndex.vectorize_docs, Weaviate.vectorize_docs, ChromaDB.vectorize_docs,
        Weaviate.ingestPipeline, ChromaDB.ingestPipeline, set_rag_context, effBind, effPure,
        Weaviate.LFAI_INDEX_NAME, ChromaDB.LFAI_INDEX_NAME, hset, hwv, hcv, hq, hw hwv]
    · simp [LLamaIndex.vectorize_docs, ChromaDB.vectorize_docs, ChromaDB.ingestPipeline,
        set_rag_context, effBind, effPure, ChromaDB.LFAI_INDEX_NAME, hset, hwv, hcv, hq]

/-- Witness for `failures_propagate_unhandled` at `errWorld`: the ChromaDB
failure reaches the caller unchanged for both entry points, even though
the Weaviate call preceding it succeeded. -/
theorem failures_propagate_unhandled_witness :
    (LLamaIndex.process_query errWorld testEnv "q" []).1
        = Except.error "chromadb connection refused"
    ∧ (LLamaIndex.vectorize_docs errWorld testEnv testDocs ["weaviate", "chromadb"] []).1
        = Except.error "chromadb connection refused" := by
  have h := failures_propagate_unhandled errWorld testEnv "q" testDocs
    ["weaviate", "chromadb"] "chromadb connection refused" rfl
  exact ⟨h.2.1 (by decide) (fun _ => ⟨"weaviate answer", rfl⟩) rfl,
         h.2.2.2 (by decide) (fun _ => rfl) rfl⟩

/-- C7: the router's behaviour depends only on whether `'weaviate'` and
`'chromadb'` are members of the configured backend list: two lists
agreeing on those two memberships give identical vectorize and query
outcomes (result and full call trace); each external call is made at most
once (the trace is a sublist of the three possible calls, so duplicates
in the list cause no repeated invocation and unknown identifiers are
never invoked); and any name in a returned processed list is `'weaviate'`
or `'chromadb'`. -/
theorem router_depends_on_membership_only (w : World) (env : Env) (docs : Docs)
    (prompt : String) (vdbs1 vdbs2 : List String)
    (hw : vdbs1.contains "weaviate" = vdbs2.contains "weaviate")
    (hc : vdbs1.contains "chromadb" = vdbs2.contains "chromadb") :
    LLamaIndex.vectorize_docs w env docs vdbs1 []
        = LLamaIndex.vectorize_docs w env docs vdbs2 []
    ∧ LLamaIndex.process_query (World.setVdbs w vdbs1) env prompt []
        = LLamaIndex.process_query (World.setVdbs w vdbs2) env prompt []
    ∧ (LLamaIndex.vectorize_docs w env docs vdbs1 []).2.Sublist
        [Call.setRag,
         Call.weaviateIngest (BaseVectorStore.LFAI_INDEX_NAME env) docs,
         Call.chromaIngest (BaseVectorStore.LFAI_INDEX_NAME env) docs]
    ∧ (LLamaIndex.process_query (World.setVdbs w vdbs1) env prompt []).2.Sublist
        [Call.setRag,
         Call.weaviateQuery (BaseVectorStore.LFAI_INDEX_NAME env) prompt,
         Call.chromaQuery (BaseVectorStore.LFAI_INDEX_NAME env) prompt]
    ∧ (∀ l t, LLamaIndex.vectorize_docs w env docs vdbs1 [] = (Except.ok l, t) →
        ∀ b ∈ l, b = "weaviate" ∨ b = "chromadb") := by
  refine ⟨?_, ?_, ?_, ?_, ?_⟩
  · unfold LLamaIndex.vectorize_docs
    rw [hw, hc]
  · have e1 : Weaviate.process_query (World.setVdbs w vdbs1) env prompt
        = Weaviate.process_query (World.setVdbs w vdbs2) env prompt := rfl
    have e2 : ChromaDB.process_query (World.setVdbs w vdbs1) env prompt
        = ChromaDB.process_query (World.setVdbs w vdbs2) env prompt := rfl
    have e3 : set_rag_context (World.setVdbs w vdbs1)
        = set_rag_context (World.setVdbs w vdbs2) := rfl
    have e4 : (World.setVdbs w vdbs1).routerQueryElapsed
        = (World.setVdbs w vdbs2).routerQueryElapsed := rfl
    have e5 : (World.setVdbs w vdbs1).configVdbs = vdbs1 := rfl
    have e6 : (World.setVdbs w vdbs2).configVdbs = vdbs2 := rfl
    simp only [LLamaIndex.process_query, e5, e6]
    simp only [e1, e2, e3, e4, hw, hc]
  · by_cases hwv : "weaviate" ∈ vdbs1 <;>
    by_cases hcv : "chromadb" ∈ vdbs1 <;>
    cases hs : w.setRagRes <;>
    cases hi : w.weaviateIngestRes (BaseVectorStore.LFAI_INDEX_NAME env) docs <;>
    cases hj : w.chromaIngestRes (BaseVectorStore.LFAI_INDEX_NAME env) docs <;>
      simp [LLamaIndex.vectorize_docs, Weaviate.vectorize_docs, ChromaDB.vectorize_docs,
        Weaviate.ingestPipeline, ChromaDB.ingestPipeline, set_rag_context, effBind, effPure,
        Weaviate.LFAI_INDEX_NAME, ChromaDB.LFAI_INDEX_NAME, hs, hi, hj, hwv, hcv]
  · by_cases hwv : "weaviate" ∈ vdbs1 <;>
    by_cases hcv : "chromadb" ∈ vdbs1 <;>
    cases hs : w.setRagRes <;>
    cases hq : w.weaviateQueryRes (BaseVectorStore.LFAI_INDEX_NAME env) prompt <;>
    cases hr : w.chromaQueryRes (BaseVectorStore.LFAI_INDEX_NAME env) prompt <;>
      simp [LLamaIndex.process_query, Weaviate.process_query, ChromaDB.process_query,
        Weaviate.queryPipeline, ChromaDB.queryPipeline, set_rag_context, effBind, effPure,
        Weaviate.LFAI_INDEX_NAME, World.setVdbs, hs, hq, hr, hwv, hcv]
  · intro l t h
    by_cases hwv : "weaviate" ∈ vdbs1 <;>
    by_cases hcv : "chromadb" ∈ vdbs1 <;>
    cases hs : w.setRagRes <;>
    cases hi : w.weaviateIngestRes (BaseVectorStore.LFAI_INDEX_NAME env) docs <;>
    cases hj : w.chromaIngestRes (BaseVectorStore.LFAI_INDEX_NAME env) docs <;>
      simp [LLamaIndex.vectorize_docs, Weaviate.vectorize_docs, ChromaDB.vectorize_docs,
        Weaviate.ingestPipeline, ChromaDB.ingestPipeline, set_rag_context, effBind, effPure,
        Weaviate.LFAI_INDEX_NAME, ChromaDB.LFAI_INDEX_NAME, hs, hi, hj, hwv, hcv] at h <;>
      (rcases h with ⟨h1, _⟩; subst h1; simp)

/-- Witness for `router_depends_on_membership_only`: a reordered list with
a duplicate and an unknown identifier behaves exactly like the canonical
two-element list. -/
theorem router_depends_on_membership_only_witness :
    LLamaIndex.vectorize_docs testWorld testEnv testDocs
        ["pinecone", "chromadb", "weaviate", "weaviate"] []
      = LLamaIndex.vectorize_docs testWorld testEnv testDocs ["weaviate", "chromadb"] [] :=
  (router_depends_on_membership_only testWorld testEnv testDocs "q"
    ["pinecone", "chromadb", "weaviate", "weaviate"] ["weaviate", "chromadb"]
    (by decide) (by decide)).1

/-- C1 counterexample: with the enabled-backend list
`['chromadb', 'weaviate']`, both router entry points return the
processed-backends list `['weaviate', 'chromadb']` — the reverse of the
configured ordering — so the returned list does not match the ordering of
the enabled-backend list. -/
theorem vectorize_config_order_not_followed :
    (LLamaIndex.vectorize_docs testWorld testEnv testDocs ["chromadb", "weaviate"] []).1
        = Except.ok ["weaviate", "chromadb"]
    ∧ (LLamaIndex.vectorize_docs testWorld testEnv testDocs ["chromadb", "weaviate"] []).1
        ≠ Except.ok ["chromadb", "weaviate"]
    ∧ (LLamaIndex.process_query testWorld testEnv "q" []).1
        = Except.ok
            { prompt := "q",
              vdbs_processed := ["weaviate", "chromadb"],
              responses :=
                [{ vector_store := "weaviate", response := "weaviate answer", elapsed := 1 },
                 { vector_store := "chromadb", response := "chroma answer", elapsed := 2 }],
              elapsed := 5 } := by
  refine ⟨rfl, ?_, rfl⟩
  intro hcontra
  have hlists : (["weaviate", "chromadb"] : List String) = ["chromadb", "weaviate"] := by
    injection hcontra
  exact absurd hlists (by decide)

/-- C1 amended: for every configured enabled-backend list, both router
entry points invoke exactly the supported backends (`'weaviate'` and
`'chromadb'`) that are members of the list, each exactly once, in the
fixed source order Weaviate-then-ChromaDB regardless of the list's own
ordering, and return a processed-backends list that is exactly that
membership-filtered, canonically ordered list (so it matches the
enabled-backend list's length and ordering exactly when that list is a
duplicate-free list of supported names ordered Weaviate first). -/
theorem router_fixed_order_dispatch (w : World) (env : Env) (docs : Docs)
    (prompt qw qc : String) (vdbs : List String)
    (hset : w.setRagRes = Except.ok ())
    (hwi : w.weaviateIngestRes (BaseVectorStore.LFAI_INDEX_NAME env) docs = Except.ok ())
    (hci : w.chromaIngestRes (BaseVectorStore.LFAI_INDEX_NAME env) docs = Except.ok ())
    (hwq : w.weaviateQueryRes (BaseVectorStore.LFAI_INDEX_NAME env) prompt = Except.ok qw)
    (hcq : w.chromaQueryRes (BaseVectorStore.LFAI_INDEX_NAME env) prompt = Except.ok qc) :
    LLamaIndex.vectorize_docs w env docs vdbs []
      = (Except.ok
          ((if vdbs.contains "weaviate" then ["weaviate"] else [])
            ++ (if vdbs.contains "chromadb" then ["chromadb"] else [])),
         [Call.setRag]
           ++ (if vdbs.contains "weaviate" then
                 [Call.weaviateIngest (BaseVectorStore.LFAI_INDEX_NAME env) docs] else [])
           ++ (if vdbs.contains "chromadb" then
                 [Call.chromaIngest (BaseVectorStore.LFAI_INDEX_NAME env) docs] else []))
    ∧ (LLamaIndex.process_query (World.setVdbs w vdbs) env prompt []).1
        = Except.ok
            { prompt := prompt,
              vdbs_processed :=
                (if vdbs.contains "weaviate" then ["weaviate"] else [])
                  ++ (if vdbs.contains "chromadb" then ["chromadb"] else []),
              responses :=
                (if vdbs.contains "weaviate" then
                    [{ vector_store := "weaviate", response := qw,
                       elapsed := w.weaviateQueryElapsed }] else [])
                  ++ (if vdbs.contains "chromadb" then
                    [{ vector_store := "chromadb", response := qc,
                       elapsed := w.chromaQueryElapsed }] else []),
              elapsed := w.routerQueryElapsed }
    ∧ ((if vdbs.contains "weaviate" then ["weaviate"] else [])
          ++ (if vdbs.contains "chromadb" then ["chromadb"] else [])).Sublist
        ["weaviate", "chromadb"] := by
  refine ⟨?_, ?_, ?_⟩
  · by_cases hwv : "weaviate" ∈ vdbs <;>
    by_cases hcv : "chromadb" ∈ vdbs <;>
      simp [LLamaIndex.vectorize_docs, Weaviate.vectorize_docs, ChromaDB.vectorize_docs,
        Weaviate.ingestPipeline, ChromaDB.ingestPipeline, set_rag_context, effBind, effPure,
        Weaviate.LFAI_INDEX_NAME, ChromaDB.LFAI_INDEX_NAME, hset, hwi, hci, hwv, hcv]
  · by_cases hwv : "weaviate" ∈ vdbs <;>
    by_cases hcv : "chromadb" ∈ vdbs <;>
      simp [LLamaIndex.process_query, Weaviate.process_query, ChromaDB.process_query,
        Weaviate.queryPipeline, ChromaDB.queryPipeline, set_rag_context, effBind, effPure,
        Weaviate.LFAI_INDEX_NAME, World.setVdbs, hset, hwq, hcq, hwv, hcv]
  · by_cases hwv : "weaviate" ∈ vdbs <;>
    by_cases hcv : "chromadb" ∈ vdbs <;>
      simp [hwv, hcv]

/-- Witness for `router_fixed_order_dispatch` at `testWorld` with the
reversed list `['chromadb', 'weaviate']`: dispatch happens in the fixed
Weaviate-then-ChromaDB order. -/
theorem router_fixed_order_dispatch_witness :
    LLamaIndex.vectorize_docs testWorld testEnv testDocs ["chromadb", "weaviate"] []
      = (Except.ok ["weaviate", "chromadb"],
         [Call.setRag, Call.weaviateIngest (some "lfai") testDocs,
          Call.chromaIngest (some "lfai") testDocs]) := by
  simpa using (router_fixed_order_dispatch testWorld testEnv testDocs "q"
    "weaviate answer" "chroma answer" ["chromadb", "weaviate"] rfl rfl rfl rfl rfl).1
